import Mathlib

/-!
# Verification of the Pinecone ingestion / retrieval pipeline

Shallow embedding of the two `vector_db` components of the repository:

* `src/components/vector_db/pinecone_insert.py` — `PineconeIndexerComponent.process_files`
  (metadata validation via a pydantic `Schema`, file loading through
  `SimpleDirectoryReader` with a custom metadata merge, per-document row
  aggregation, and indexing via `VectorStoreIndex.from_documents` over a
  `StorageContext.from_defaults(vector_store=...)`).
* `src/components/vector_db/document_retriever.py` — `PineconeDocumentRetriever.retrieve_document`
  (a metadata-filtered query on the vector store by the key `"file id"`,
  following the first returned node's SOURCE relationship into a Postgres
  document store, wrapping every failure into an
  `"Error retrieving document: ..."` string).

External services (the Pinecone index, the Postgres document store, the
embedding backend) are modelled as explicit state: the vector store is a list
of chunk nodes, the document store an association list from document ids to
documents.  Python dictionaries are association lists of string keys and
dynamically typed values.
-/

set_option autoImplicit false

namespace PineconePipeline

/-- Dynamically typed Python values, as far as the metadata handling of the
two components inspects them: strings, integers, booleans and lists. -/
inductive PyVal where
  | vStr (s : String)
  | vInt (n : Int)
  | vBool (b : Bool)
  | vList (xs : List PyVal)

/-- A Python `dict` with string keys: an association list.  Python dictionaries
have unique keys; lookups below return the first binding. -/
abbrev Dict := List (String × PyVal)

/-- First-binding lookup in an association list (the semantics of `d[k]` /
`d.get(k)` on a Python dict, whose keys are unique). -/
def assocLookup {α : Type} : List (String × α) → String → Option α
  | [], _ => none
  | (k, v) :: rest, key => if k = key then some v else assocLookup rest key

/-- `d[key] = v` on a Python dict: replace the binding if the key is present
(keeping its position), append a new binding otherwise. -/
def dictInsert : Dict → String → PyVal → Dict
  | [], key, v => [(key, v)]
  | (k, w) :: rest, key, v =>
    if k = key then (key, v) :: rest
    else (k, w) :: dictInsert rest key v

/-- Python's `{**a, **b}`: start from `a` and insert the bindings of `b` in
order, so that values from `b` overwrite values from `a` on a key collision. -/
def pyDictMerge : Dict → Dict → Dict
  | a, [] => a
  | a, (k, v) :: b => pyDictMerge (dictInsert a k v) b

/-! ## Metadata validation

`process_files` starts by validating `self.metadata` against the pydantic model

```python
class Schema(BaseModel):
    source: str
    user_id: str
    client: str
    title: str
    tag: list
    class Config:
        extra = "allow"

valid_meta = Schema(**self.metadata)
```

(langflow pins pydantic v2, which rejects non-string input for a `str` field
and any non-list for a `list` field; extra keys are allowed).  Pydantic
collects one violation per failing field; we record the failing field names.
The constructed `valid_meta` is discarded — the rest of `process_files` keeps
using the original `self.metadata` mapping unchanged. -/

/-- Pydantic v2 acceptance for a `str` field: the key is present with a string
value. -/
def isStrVal : Option PyVal → Bool
  | some (.vStr _) => true
  | _ => false

/-- Pydantic v2 acceptance for a `list` field: the key is present with a list
value. -/
def isListVal : Option PyVal → Bool
  | some (.vList _) => true
  | _ => false

/-- The violations `Schema(**metadata)` collects: one entry per required field
that is missing or has the wrong type. -/
def schemaErrors (m : Dict) : List String :=
  (if isStrVal (assocLookup m "source") then [] else ["source"]) ++
  (if isStrVal (assocLookup m "user_id") then [] else ["user_id"]) ++
  (if isStrVal (assocLookup m "client") then [] else ["client"]) ++
  (if isStrVal (assocLookup m "title") then [] else ["title"]) ++
  (if isListVal (assocLookup m "tag") then [] else ["tag"])

/-- `Schema(**m)` as a fallible computation: a `ValidationError` listing the
failing fields, or success passing the original mapping through (the pipeline
keeps using `self.metadata` itself). -/
def schemaValidate (m : Dict) : Except (List String) Dict :=
  match schemaErrors m with
  | [] => .ok m
  | errs => .error errs

/-- The shape the pydantic `Schema` requires of the five mandatory fields. -/
def requiredWellShaped (m : Dict) : Prop :=
  isStrVal (assocLookup m "source") = true ∧
  isStrVal (assocLookup m "user_id") = true ∧
  isStrVal (assocLookup m "client") = true ∧
  isStrVal (assocLookup m "title") = true ∧
  isListVal (assocLookup m "tag") = true

instance (m : Dict) : Decidable (requiredWellShaped m) := by
  unfold requiredWellShaped
  infer_instance

/-! ## Documents, chunk nodes and the two external stores -/

/-- A llama-index `Document`: a key (`doc_id`), the raw text body, and the
metadata mapping attached by the loader. -/
structure Document where
  docId : String
  text : String
  metadata : Dict

/-- A chunk node held by the Pinecone vector store: chunk text, the metadata
copied from its owning document, and the `NodeRelationship.SOURCE` pointer to
the owning document's key (`none` when the node carries no SOURCE
relationship). -/
structure ChunkNode where
  text : String
  metadata : Dict
  sourceId : Option String

/-- The Postgres document store (`document_store` table) read by the
retriever: an association list from document ids to documents. -/
abbrev DocStore := List (String × Document)

/-- The two external stores the pipeline touches: the Pinecone index (the
partition the components address: index `"quickstart"` / the retriever's
index+namespace) and the Postgres document store. -/
structure Stores where
  vectorStore : List ChunkNode
  docStore : DocStore

/-! ## Filtered retriever (`PineconeDocumentRetriever.retrieve_document`)

```python
filters = MetadataFilters(filters=[MetadataFilter(key="file id", value=self.file_id, operator=FilterOperator.EQ)])
nodes = vector_store.get_nodes(filters=filters)
if not nodes:
    msg = f"No document found with file path: {self.file_id}"
    raise ValueError(msg)
relationships = nodes[0].relationships
source_node_info = relationships.get(NodeRelationship.SOURCE)
document = doc_store.get_document(doc_id=source_node_info.node_id)
document_text = document.text
...
except Exception as e:
    error_msg = f"Error retrieving document: {str(e)}"
    raise ValueError(error_msg) from e
```

`get_nodes` with an EQ filter returns the nodes whose metadata value at
`"file id"` equals the given string; `PostgresDocumentStore.get_document`
raises `ValueError(f"doc_id {doc_id} not found.")` on a missing id;
`relationships.get` returns `None` when the node has no SOURCE relationship,
making `source_node_info.node_id` an `AttributeError`.  Every exception is
wrapped into the single `"Error retrieving document: ..."` string. -/

/-- Equality test the EQ metadata filter applies: the metadata value at the
key is the given string. -/
def pyEqStr : Option PyVal → String → Bool
  | some (.vStr s), t => s == t
  | _, _ => false

/-- `vector_store.get_nodes(filters=...)` with the single EQ filter on key
`"file id"`. -/
def getNodesByFileId (vs : List ChunkNode) (fileId : String) : List ChunkNode :=
  vs.filter (fun n => pyEqStr (assocLookup n.metadata "file id") fileId)

/-- The failures `retrieve_document` can raise, before the outer handler
turns them into one string. -/
inductive RetrieveError where
  | noNodesFound (fileId : String)
  | docNotFound (docId : String)
  | missingSourceRelationship

/-- Which retrieval failures are of the not-found kind (a query or lookup
that returned no match), as opposed to an unrelated error. -/
def RetrieveError.isNotFound : RetrieveError → Bool
  | .noNodesFound _ => true
  | .docNotFound _ => true
  | .missingSourceRelationship => false

/-- The single error string the outer `except` hands to the caller. -/
def renderRetrieveError : RetrieveError → String
  | .noNodesFound fid =>
      "Error retrieving document: No document found with file path: " ++ fid
  | .docNotFound did =>
      "Error retrieving document: doc_id " ++ did ++ " not found."
  | .missingSourceRelationship =>
      "Error retrieving document: 'NoneType' object has no attribute 'node_id'"

/-- `retrieve_document`: filtered query, first node, SOURCE pointer, point
lookup in the document store, return of the stored document's text. -/
def retrieveDocument (vs : List ChunkNode) (ds : DocStore) (fileId : String) :
    Except RetrieveError String :=
  match getNodesByFileId vs fileId with
  | [] => .error (.noNodesFound fileId)
  | node :: _ =>
    match node.sourceId with
    | none => .error .missingSourceRelationship
    | some sid =>
      match assocLookup ds sid with
      | none => .error (.docNotFound sid)
      | some doc => .ok doc.text

/-! ## Ingestion (`PineconeIndexerComponent.process_files`)

```python
valid_meta = Schema(**self.metadata)          # before the try-block
file_list = [self.file] if isinstance(self.file, str) else self.file
if not file_list:
    raise ValueError("No files to process.")  # before the try-block
try:
    ... # Pinecone / OpenAI clients, StorageContext.from_defaults(vector_store=...)
    reader = SimpleDirectoryReader(input_files=file_paths)
    reader.file_metadata = custom_metadata    # {**default_metadata, **self.metadata}
    documents = reader.load_data()
    processed_data = []
    for doc in documents:
        try:
            file_path = doc.metadata.get("file_path", "Unknown")
            data = Data(text=doc.text, data={"metadata": doc.metadata, "file_path": file_path})
            processed_data.append(data)
        except Exception as e:
            self.log(f"Error processing document: {str(e)}")
    VectorStoreIndex.from_documents(documents, storage_context=storage_context, embed_model=embed_model)
    result = DataFrame()
    return result.add_rows(processed_data)
except Exception as e:
    raise ValueError(f"Error during processing and indexing: {str(e)}") from e
```

The `StorageContext.from_defaults(vector_store=vector_store)` call supplies a
fresh request-scoped in-memory `SimpleDocumentStore`; `from_documents` writes
the embedded chunk nodes (metadata inherited from the document, SOURCE
relationship set to the document's id) into the Pinecone vector store and
nothing into the Postgres `document_store` table the retriever reads. -/

/-- An input file of one ingestion batch: its path, whether the underlying
bytes can be read/decoded, and its text content when readable. -/
structure IngestFile where
  path : String
  readable : Bool
  content : String

/-- `default_file_metadata_func`: the system-derived metadata attached to a
loaded file (representative fields; all keys use underscores — in particular
no `"file id"` key is ever produced). -/
def defaultFileMetadata (path : String) : Dict :=
  [("file_path", .vStr path),
   ("file_name", .vStr path),
   ("file_type", .vStr "text/plain")]

/-- `custom_metadata` from `process_files`: merge the system-derived defaults
with the user-supplied mapping, the user-supplied bindings overwriting the
defaults (`{**default_metadata, **custom_metadata}`). -/
def customMetadata (userMeta : Dict) (path : String) : Dict :=
  pyDictMerge (defaultFileMetadata path) userMeta

/-- Modelled from the spec: `SimpleDirectoryReader.load_data` is external
library code; its per-file failure handling follows the spec's Document
Loader contract — "a failure on one file does not abort loading of the
others; failures are collected and reported alongside successes".  One
document per readable file (with the merged metadata, the path as the
document key), one logged failure message per unreadable file. -/
def loadDocuments (userMeta : Dict) : List IngestFile → List Document × List String
  | [] => ([], [])
  | f :: rest =>
    let (docs, errs) := loadDocuments userMeta rest
    if f.readable then
      ({ docId := f.path, text := f.content,
         metadata := customMetadata userMeta f.path } :: docs, errs)
    else
      (docs, ("Failed to load file " ++ f.path) :: errs)

/-- One row of the returned `DataFrame`: the document's text, its metadata
and the `"file_path"` metadata entry (`doc.metadata.get("file_path", "Unknown")`). -/
structure Row where
  text : String
  metadata : Dict
  filePath : PyVal

/-- Build the row the per-document loop appends for one loaded document. -/
def rowOfDocument (d : Document) : Row :=
  { text := d.text,
    metadata := d.metadata,
    filePath := (assocLookup d.metadata "file_path").getD (.vStr "Unknown") }

/-- The errors `process_files` can raise, by raise site. -/
inductive IngestError where
  | validationError (fields : List String)
  | noFilesToProcess
  | processingError (msg : String)

/-- The error message each `process_files` failure carries to the caller:
only failures raised inside the try-block get the
`"Error during processing and indexing: "` marker; the pydantic
`ValidationError` and the empty-list `ValueError` are raised before the
try-block and propagate unwrapped. -/
def ingestErrorMessage : IngestError → String
  | .validationError fields =>
      "validation error for Schema: " ++ String.intercalate ", " fields
  | .noFilesToProcess => "No files to process."
  | .processingError msg =>
      "Error during processing and indexing: " ++ msg

/-- `VectorStoreIndex.from_documents` over
`StorageContext.from_defaults(vector_store=vector_store)`: each document's
chunk nodes (modelled as one node per document — the chunking policy is the
backend's) are embedded and written to the Pinecone vector store, carrying
the document's metadata and a SOURCE relationship to its id.  The Postgres
document store is not touched: the default storage context only holds a
request-scoped in-memory docstore. -/
def chunkOfDocument (d : Document) : ChunkNode :=
  { text := d.text, metadata := d.metadata, sourceId := some d.docId }

def indexToVectorStore (docs : List Document) (st : Stores) : Stores :=
  { vectorStore := st.vectorStore ++ docs.map chunkOfDocument,
    docStore := st.docStore }

/-- `process_files`: metadata validation, empty-batch check, loading, row
aggregation, indexing.  Returns the outcome (rows plus collected per-file
load failures, or the raised error) together with the state of the external
stores after the call. -/
def processFiles (userMeta : Dict) (files : List IngestFile) (st : Stores) :
    Except IngestError (List Row × List String) × Stores :=
  match schemaErrors userMeta with
  | e :: es => (.error (.validationError (e :: es)), st)
  | [] =>
    if files.isEmpty then
      (.error .noFilesToProcess, st)
    else
      let (docs, loadFailures) := loadDocuments userMeta files
      (.ok (docs.map rowOfDocument, loadFailures), indexToVectorStore docs st)

/-! ## Concrete inputs

Constants used to instantiate the theorems below: the ingestion scenario of
the spec (metadata `{source: "email", user_id: "a@x.com", client: "Acme",
title: "T", tag: ["x"]}`, body `"hello world"`, key `"doc1"`), a mapping
missing most required fields, and small store states. -/

def scenarioMetadata : Dict :=
  [("source", .vStr "email"), ("user_id", .vStr "a@x.com"), ("client", .vStr "Acme"),
   ("title", .vStr "T"), ("tag", .vList [.vStr "x"])]

def scenarioFile : IngestFile :=
  { path := "doc1", readable := true, content := "hello world" }

def emptyStores : Stores := { vectorStore := [], docStore := [] }

/-- A mapping that binds all five required fields, `tag` to a list, but
`source` to a non-string value. -/
def nonStringSourceMeta : Dict :=
  [("source", .vList []), ("user_id", .vStr "a@x.com"), ("client", .vStr "Acme"),
   ("title", .vStr "T"), ("tag", .vList [])]

/-- A mapping missing `source`, `client`, `title` and `tag`. -/
def invalidMeta : Dict := [("user_id", .vStr "a@x.com")]

/-- A chunk node matching the filter for `"doc1"` whose SOURCE pointer is
`"k1"`. -/
def danglingNode : ChunkNode :=
  { text := "hello", metadata := [("file id", .vStr "doc1")], sourceId := some "k1" }

/-- A document stored under the id `"k1"`. -/
def storedDoc : Document :=
  { docId := "k1", text := "hello world", metadata := [("file path", .vStr "doc1")] }

def readableFileA : IngestFile := { path := "a.txt", readable := true, content := "alpha" }

def unreadableFileB : IngestFile := { path := "b.txt", readable := false, content := "" }

/-- `marker` is a prefix of `msg`, decided on the underlying character
lists. -/
def startsWithStr (marker msg : String) : Bool :=
  marker.data.isPrefixOf msg.data

/-! ## Helper lemmas -/

theorem assocLookup_eq_none_of_not_mem {α : Type} (l : List (String × α)) (key : String)
    (h : key ∉ l.map Prod.fst) : assocLookup l key = none := by
  induction l with
  | nil => rfl
  | cons p rest ih =>
    simp only [List.map_cons, List.mem_cons] at h
    push_neg at h
    obtain ⟨hk, hrest⟩ := h
    cases p with
    | mk k v =>
      simp only [assocLookup]
      rw [if_neg (fun hkk => hk hkk.symm)]
      exact ih hrest

theorem assocLookup_dictInsert (d : Dict) (key key' : String) (v : PyVal) :
    assocLookup (dictInsert d key v) key' =
      if key = key' then some v else assocLookup d key' := by
  induction d with
  | nil =>
    simp only [dictInsert, assocLookup]
  | cons p rest ih =>
    cases p with
    | mk k w =>
      by_cases hk : k = key
      · subst hk
        simp only [dictInsert, if_pos rfl, assocLookup]
        by_cases hkk : k = key' <;> simp [hkk]
      · simp only [dictInsert, if_neg hk, assocLookup]
        by_cases hk' : k = key'
        · subst hk'
          rw [if_pos rfl, if_neg (fun h => hk h.symm), if_pos rfl]
        · rw [if_neg hk', if_neg hk', ih]

/-- The bindings of `pyDictMerge a b` at any key: the value from `b` when `b`
binds the key (`b` having unique keys, as a Python dict does), the value from
`a` otherwise. -/
theorem assocLookup_pyDictMerge (b : Dict) (a : Dict) (key : String)
    (hnodup : (b.map Prod.fst).Nodup) :
    assocLookup (pyDictMerge a b) key =
      match assocLookup b key with
      | some v => some v
      | none => assocLookup a key := by
  induction b generalizing a with
  | nil => simp [pyDictMerge, assocLookup]
  | cons p rest ih =>
    cases p with
    | mk kb vb =>
      simp only [List.map_cons, List.nodup_cons] at hnodup
      obtain ⟨hkb, hrest⟩ := hnodup
      simp only [pyDictMerge, assocLookup]
      rw [ih (dictInsert a kb vb) hrest]
      by_cases hk : kb = key
      · subst hk
        rw [if_pos rfl, assocLookup_eq_none_of_not_mem rest kb hkb]
        simp [assocLookup_dictInsert]
      · rw [if_neg hk]
        cases hrk : assocLookup rest key with
        | some v => simp
        | none => simp [assocLookup_dictInsert, hk]

theorem schemaErrors_eq_nil_iff (m : Dict) :
    schemaErrors m = [] ↔ requiredWellShaped m := by
  unfold schemaErrors requiredWellShaped
  by_cases h1 : isStrVal (assocLookup m "source") = true <;>
    by_cases h2 : isStrVal (assocLookup m "user_id") = true <;>
      by_cases h3 : isStrVal (assocLookup m "client") = true <;>
        by_cases h4 : isStrVal (assocLookup m "title") = true <;>
          by_cases h5 : isListVal (assocLookup m "tag") = true <;>
            simp [h1, h2, h3, h4, h5]

/-- Lengths of the two components of `loadDocuments`: one document per
readable file, one failure message per unreadable file. -/
theorem loadDocuments_lengths (userMeta : Dict) (files : List IngestFile) :
    (loadDocuments userMeta files).1.length = files.countP (fun f => f.readable) ∧
    (loadDocuments userMeta files).2.length = files.countP (fun f => !f.readable) := by
  induction files with
  | nil => simp [loadDocuments]
  | cons f rest ih =>
    obtain ⟨ih1, ih2⟩ := ih
    cases hld : loadDocuments userMeta rest with
    | mk docs errs =>
      rw [hld] at ih1 ih2
      by_cases hr : f.readable = true <;>
        simp [loadDocuments, hld, List.countP_cons, hr, ih1, ih2]

theorem countP_readable_add_not (files : List IngestFile) :
    files.countP (fun f => f.readable) + files.countP (fun f => !f.readable)
      = files.length := by
  induction files with
  | nil => rfl
  | cons f rest ih =>
    by_cases hr : f.readable = true <;>
      simp [List.countP_cons, hr] <;> omega

/-- A marker that prefixes a string also prefixes every right-extension of
it. -/
theorem startsWithStr_append_right (marker pre suf : String)
    (h : startsWithStr marker pre = true) :
    startsWithStr marker (pre ++ suf) = true := by
  unfold startsWithStr at h ⊢
  rw [List.isPrefixOf_iff_prefix] at h ⊢
  show marker.data <+: pre.data ++ suf.data
  exact h.trans (List.prefix_append _ _)

/-! ## Claim theorems -/

/-- C3 (counterexample): a mapping binding all five required fields, with
`tag` a list, on which the pydantic `Schema` validation nevertheless fails,
because `source` is bound to a non-string value.  The claim's "for every
mapping containing all five (tag a list) it succeeds" is therefore false on
the code. -/
theorem schema_rejects_all_fields_present_nonstring_source :
    (assocLookup nonStringSourceMeta "source").isSome = true ∧
    (assocLookup nonStringSourceMeta "user_id").isSome = true ∧
    (assocLookup nonStringSourceMeta "client").isSome = true ∧
    (assocLookup nonStringSourceMeta "title").isSome = true ∧
    isListVal (assocLookup nonStringSourceMeta "tag") = true ∧
    schemaValidate nonStringSourceMeta = Except.error ["source"] :=
  ⟨rfl, rfl, rfl, rfl, rfl, rfl⟩

/-- C3 (amended): the metadata validation succeeds, passing the original
mapping (extra fields included) through unchanged, exactly when the five
required fields are present with their declared shapes — `source`,
`user_id`, `client`, `title` strings and `tag` a list; otherwise it fails
with a `ValidationError` listing at least one violated field. -/
theorem schema_validate_ok_iff_well_shaped (m : Dict) :
    (schemaValidate m = Except.ok m ↔ requiredWellShaped m) ∧
    (¬ requiredWellShaped m →
      ∃ fields, schemaValidate m = Except.error fields ∧ fields ≠ []) := by
  have hiff := schemaErrors_eq_nil_iff m
  cases he : schemaErrors m with
  | nil =>
    have hok : schemaValidate m = Except.ok m := by
      unfold schemaValidate
      rw [he]
    have hws : requiredWellShaped m := hiff.mp he
    exact ⟨⟨fun _ => hws, fun _ => hok⟩, fun hn => absurd hws hn⟩
  | cons e es =>
    have herr : schemaValidate m = Except.error (e :: es) := by
      unfold schemaValidate
      rw [he]
    constructor
    · constructor
      · intro h
        rw [herr] at h
        exact Except.noConfusion h
      · intro hws
        rw [hiff.mpr hws] at he
        exact List.noConfusion he
    · intro _
      exact ⟨e :: es, herr, by simp⟩

/-- C3 (witness): the mapping missing `source`, `client`, `title` and `tag`
is not well shaped, and validation fails on it with a non-empty violation
list. -/
theorem schema_validate_ok_iff_well_shaped_witness :
    ¬ requiredWellShaped invalidMeta ∧
    ∃ fields, schemaValidate invalidMeta = Except.error fields ∧ fields ≠ [] :=
  ⟨by decide, (schema_validate_ok_iff_well_shaped invalidMeta).2 (by decide)⟩

/-- C4: when the filtered vector-store query returns zero chunk nodes for
the requested file id, `retrieve_document` fails with the not-found error
(`"No document found with file path: ..."`) and never returns any text. -/
theorem retrieve_empty_query_fails_not_found (vs : List ChunkNode) (ds : DocStore)
    (fileId : String) (h : getNodesByFileId vs fileId = []) :
    retrieveDocument vs ds fileId = Except.error (.noNodesFound fileId) ∧
    (RetrieveError.noNodesFound fileId).isNotFound = true ∧
    ∀ t : String, retrieveDocument vs ds fileId ≠ Except.ok t := by
  have herr : retrieveDocument vs ds fileId = Except.error (.noNodesFound fileId) := by
    unfold retrieveDocument
    rw [h]
  refine ⟨herr, rfl, fun t ht => ?_⟩
  rw [herr] at ht
  exact Except.noConfusion ht

/-- C4 (witness): on an empty vector store the query for `"doc1"` returns no
nodes and retrieval fails with the not-found error. -/
theorem retrieve_empty_query_fails_not_found_witness :
    getNodesByFileId [] "doc1" = [] ∧
    retrieveDocument [] [] "doc1" = Except.error (.noNodesFound "doc1") :=
  ⟨rfl, (retrieve_empty_query_fails_not_found [] [] "doc1" rfl).1⟩

/-- C5: when the first matched chunk node's SOURCE pointer names a key the
document store has no record for, `retrieve_document` fails with the
not-found error of the document-store lookup (`"doc_id ... not found."`,
wrapped by the component's handler), not an unrelated failure. -/
theorem retrieve_dangling_reference_fails_not_found (vs : List ChunkNode)
    (ds : DocStore) (fileId sid : String) (node : ChunkNode) (rest : List ChunkNode)
    (h1 : getNodesByFileId vs fileId = node :: rest)
    (h2 : node.sourceId = some sid)
    (h3 : assocLookup ds sid = none) :
    retrieveDocument vs ds fileId = Except.error (.docNotFound sid) ∧
    (RetrieveError.docNotFound sid).isNotFound = true := by
  constructor
  · simp only [retrieveDocument, h1, h2, h3]
  · rfl

/-- C5 (witness): one matching node pointing at `"k1"`, an empty document
store; retrieval fails with the document-store not-found error. -/
theorem retrieve_dangling_reference_fails_not_found_witness :
    getNodesByFileId [danglingNode] "doc1" = [danglingNode] ∧
    danglingNode.sourceId = some "k1" ∧
    assocLookup ([] : DocStore) "k1" = none ∧
    retrieveDocument [danglingNode] [] "doc1" = Except.error (.docNotFound "k1") :=
  ⟨rfl, rfl, rfl,
    (retrieve_dangling_reference_fails_not_found [danglingNode] [] "doc1" "k1"
      danglingNode [] rfl rfl rfl).1⟩

/-- C6: when the filtered query returns a non-empty node list,
`retrieve_document` takes the first node, follows its SOURCE pointer, looks
that key up in the document store and, on a hit, returns the stored
document's full text body. -/
theorem retrieve_nonempty_returns_stored_text (vs : List ChunkNode) (ds : DocStore)
    (fileId sid : String) (node : ChunkNode) (rest : List ChunkNode) (doc : Document)
    (h1 : getNodesByFileId vs fileId = node :: rest)
    (h2 : node.sourceId = some sid)
    (h3 : assocLookup ds sid = some doc) :
    retrieveDocument vs ds fileId = Except.ok doc.text := by
  simp only [retrieveDocument, h1, h2, h3]

/-- C6 (witness): one matching node pointing at `"k1"`, a document store
holding `storedDoc` under `"k1"`; retrieval returns its text
`"hello world"`. -/
theorem retrieve_nonempty_returns_stored_text_witness :
    getNodesByFileId [danglingNode] "doc1" = [danglingNode] ∧
    danglingNode.sourceId = some "k1" ∧
    assocLookup [("k1", storedDoc)] "k1" = some storedDoc ∧
    retrieveDocument [danglingNode] [("k1", storedDoc)] "doc1"
      = Except.ok "hello world" :=
  ⟨rfl, rfl, rfl,
    retrieve_nonempty_returns_stored_text [danglingNode] [("k1", storedDoc)]
      "doc1" "k1" danglingNode [] storedDoc rfl rfl rfl⟩

/-- C1 (code-bug evidence): the spec's own round-trip scenario — ingest the
single readable file `"doc1"` with body `"hello world"` and the required
metadata, starting from empty stores — succeeds on the ingestion side, yet
retrieving `"doc1"` afterwards fails with the not-found error: the chunk
nodes written by `process_files` carry no `"file id"` metadata key (the
merged metadata uses `"file_path"`), and the Postgres document store the
retriever reads was never written. -/
theorem roundtrip_scenario_retrieval_fails :
    (∃ rows failures,
      (processFiles scenarioMetadata [scenarioFile] emptyStores).1
        = Except.ok (rows, failures)) ∧
    retrieveDocument
      (processFiles scenarioMetadata [scenarioFile] emptyStores).2.vectorStore
      (processFiles scenarioMetadata [scenarioFile] emptyStores).2.docStore
      "doc1"
      = Except.error (.noNodesFound "doc1") :=
  ⟨⟨_, _, rfl⟩, rfl⟩

/-- C2 (code-bug evidence): `process_files` never writes the document store
the retriever reads — after every call (any metadata, file list and starting
state) the document store is exactly what it was before.  The claimed dual
write does not exist: `StorageContext.from_defaults(vector_store=...)` only
creates a request-scoped in-memory docstore, and no Postgres client appears
in `pinecone_insert.py`. -/
theorem process_files_never_writes_docstore (userMeta : Dict)
    (files : List IngestFile) (st : Stores) :
    ((processFiles userMeta files st).2).docStore = st.docStore := by
  unfold processFiles
  cases he : schemaErrors userMeta with
  | cons e es => rfl
  | nil =>
    cases hfe : files.isEmpty with
    | true => simp
    | false =>
      cases hld : loadDocuments userMeta files with
      | mk docs errs => simp [hld, indexToVectorStore]

/-- C7: a batch of `N` files of which exactly one is unreadable (metadata
valid) yields a successful result of exactly `N - 1` rows plus exactly one
collected failure message, and in particular not zero rows.  The loader's
per-file failure isolation is modelled from the spec. -/
theorem one_unreadable_yields_all_but_one_rows (userMeta : Dict)
    (files : List IngestFile) (st : Stores) (N : Nat)
    (hvalid : schemaErrors userMeta = [])
    (hlen : files.length = N)
    (hN : 2 ≤ N)
    (hone : files.countP (fun f => !f.readable) = 1) :
    ∃ rows failures,
      (processFiles userMeta files st).1 = Except.ok (rows, failures) ∧
      rows.length = N - 1 ∧ failures.length = 1 ∧ rows.length ≠ 0 := by
  have hne : files.isEmpty = false := by
    cases files with
    | nil => simp at hlen; omega
    | cons a l => rfl
  cases hld : loadDocuments userMeta files with
  | mk docs errs =>
    have hcounts := loadDocuments_lengths userMeta files
    rw [hld] at hcounts
    obtain ⟨hdocs, herrs⟩ := hcounts
    have hsum := countP_readable_add_not files
    refine ⟨docs.map rowOfDocument, errs, ?_, ?_, ?_, ?_⟩
    · simp only [processFiles, hvalid, hne, Bool.false_eq_true, if_false, hld]
    · rw [List.length_map, hdocs]; omega
    · rw [herrs, hone]
    · rw [List.length_map, hdocs]; omega

/-- C7 (witness): two files, the second unreadable; the call returns one row
and one collected failure. -/
theorem one_unreadable_yields_all_but_one_rows_witness :
    schemaErrors scenarioMetadata = [] ∧
    [readableFileA, unreadableFileB].length = 2 ∧
    2 ≤ 2 ∧
    [readableFileA, unreadableFileB].countP (fun f => !f.readable) = 1 ∧
    ∃ rows failures,
      (processFiles scenarioMetadata [readableFileA, unreadableFileB] emptyStores).1
        = Except.ok (rows, failures) ∧
      rows.length = 2 - 1 ∧ failures.length = 1 ∧ rows.length ≠ 0 :=
  ⟨rfl, rfl, Nat.le_refl 2, rfl,
    one_unreadable_yields_all_but_one_rows scenarioMetadata
      [readableFileA, unreadableFileB] emptyStores 2 rfl rfl (Nat.le_refl 2) rfl⟩

/-- C8: in the `custom_metadata` merge, the binding at every key is the
user-supplied one whenever the user-supplied mapping (a Python dict: unique
keys) binds the key — so user-supplied values win every collision with the
system-derived defaults — and the system-derived binding otherwise. -/
theorem custom_metadata_user_precedence (userMeta : Dict) (path key : String)
    (hnodup : (userMeta.map Prod.fst).Nodup) :
    assocLookup (customMetadata userMeta path) key =
      match assocLookup userMeta key with
      | some v => some v
      | none => assocLookup (defaultFileMetadata path) key :=
  assocLookup_pyDictMerge userMeta (defaultFileMetadata path) key hnodup

/-- C8 (witness): a user mapping overriding the system-derived `"file_path"`;
the merged metadata carries the user-supplied value. -/
theorem custom_metadata_user_precedence_witness :
    (([("file_path", PyVal.vStr "user-supplied"), ("source", PyVal.vStr "email")].map
        Prod.fst).Nodup) ∧
    assocLookup
      (customMetadata [("file_path", PyVal.vStr "user-supplied"), ("source", PyVal.vStr "email")]
        "/tmp/a.txt") "file_path"
      = some (PyVal.vStr "user-supplied") :=
  ⟨by decide,
    (custom_metadata_user_precedence
      [("file_path", PyVal.vStr "user-supplied"), ("source", PyVal.vStr "email")]
      "/tmp/a.txt" "file_path" (by decide)).trans rfl⟩

/-- C9 (counterexample): a failing ingestion call — metadata missing
`source`, `client`, `title` and `tag` — whose error is the pydantic
`ValidationError`, raised before the try-block, so the message the caller
receives does not carry the call's fixed
`"Error during processing and indexing: "` marker. -/
theorem validation_failure_lacks_marker :
    (processFiles invalidMeta [scenarioFile] emptyStores).1
      = Except.error (.validationError ["source", "client", "title", "tag"]) ∧
    startsWithStr "Error during processing and indexing: "
      (ingestErrorMessage (.validationError ["source", "client", "title", "tag"]))
      = false :=
  ⟨rfl, rfl⟩

/-- C9 (amended): every retrieval failure is surfaced as a single string
with the `"Error retrieving document: "` marker; every ingestion failure
raised inside the processing/indexing try-block carries the
`"Error during processing and indexing: "` marker; and each call returns
either a successful structured result or a single error, never both.
Batch-level metadata validation failure and the empty-list error, raised
before the try-block, are the exceptions to the marker. -/
theorem error_reporting_channels :
    (∀ e : RetrieveError,
      startsWithStr "Error retrieving document: " (renderRetrieveError e) = true) ∧
    (∀ msg : String,
      startsWithStr "Error during processing and indexing: "
        (ingestErrorMessage (.processingError msg)) = true) ∧
    (∀ (userMeta : Dict) (files : List IngestFile) (st : Stores),
      (∃ rows failures,
        (processFiles userMeta files st).1 = Except.ok (rows, failures)) ∨
      (∃ e, (processFiles userMeta files st).1 = Except.error e)) := by
  refine ⟨fun e => ?_, fun msg => ?_, fun userMeta files st => ?_⟩
  · cases e with
    | noNodesFound fid =>
      exact startsWithStr_append_right _
        "Error retrieving document: No document found with file path: " fid rfl
    | docNotFound did =>
      exact startsWithStr_append_right _
        ("Error retrieving document: doc_id " ++ did) " not found."
        (startsWithStr_append_right _ "Error retrieving document: doc_id " did rfl)
    | missingSourceRelationship => rfl
  · exact startsWithStr_append_right _
      "Error during processing and indexing: " msg rfl
  · cases hr : (processFiles userMeta files st).1 with
    | ok v => exact Or.inl ⟨v.1, v.2, rfl⟩
    | error e => exact Or.inr ⟨e, rfl⟩

/-- C10 (counterexample): an ingestion call with an empty file list and
invalid metadata raises the pydantic `ValidationError`, not the
`"No files to process."` error — the validation runs first, so the claim
does not hold of every empty-file-list call. -/
theorem empty_batch_invalid_metadata_validation_error_first :
    (processFiles invalidMeta [] emptyStores).1
      = Except.error (.validationError ["source", "client", "title", "tag"]) ∧
    ingestErrorMessage (.validationError ["source", "client", "title", "tag"])
      ≠ "No files to process." := by
  refine ⟨rfl, ?_⟩
  decide

/-- C10 (amended): for every ingestion call whose metadata passes the schema
validation and whose file list is empty, `process_files` raises exactly the
`"No files to process."` error, with both external stores untouched (the
check precedes every client initialization), so an empty batch never yields
a successful result table. -/
theorem empty_file_list_raises_no_files (userMeta : Dict) (st : Stores)
    (hvalid : schemaErrors userMeta = []) :
    processFiles userMeta [] st = (Except.error .noFilesToProcess, st) := by
  unfold processFiles
  rw [hvalid]
  rfl

/-- C10 (witness): valid metadata, empty file list — the call errors with
`noFilesToProcess` and the stores are unchanged. -/
theorem empty_file_list_raises_no_files_witness :
    schemaErrors scenarioMetadata = [] ∧
    processFiles scenarioMetadata [] emptyStores
      = (Except.error .noFilesToProcess, emptyStores) :=
  ⟨rfl, empty_file_list_raises_no_files scenarioMetadata emptyStores rfl⟩

end PineconePipeline
